import Mathlib

/-!
Shallow embedding of the adulting cloud-functions repository: the daily
document store endpoints (to-do list and planner), the shared API-key
check, and the time-of-day parser used for call scheduling. Machine time
is modelled as natural-number milliseconds; an instant inside one day is
measured from the local midnight of the current day. Firestore is
modelled as a map from user id to the optional document for today
(the date key is fixed within one request).
-/

namespace Adulting

/-- JSON-like values, modelling the response bodies the endpoints return.
Numbers are restricted to the naturals that occur (status codes, counts,
numeric timestamps standing in for ISO strings). -/
inductive Json where
  | null : Json
  | bool (b : Bool) : Json
  | num (n : Nat) : Json
  | str (s : String) : Json
  | arr (xs : List Json) : Json
  | obj (fields : List (String × Json)) : Json

/-- JavaScript runtime values that can sit in a loosely typed field:
undefined, a boolean, or a string. -/
inductive JsVal where
  | undef : JsVal
  | bool (b : Bool) : JsVal
  | str (s : String) : JsVal
deriving Repr, DecidableEq

/-- JavaScript truthiness of a JsVal. -/
def jsTruthy : JsVal → Bool
  | JsVal.undef => false
  | JsVal.bool b => b
  | JsVal.str s => !(s == "")

def jsValJson : JsVal → Json
  | JsVal.undef => Json.null
  | JsVal.bool b => Json.bool b
  | JsVal.str s => Json.str s

/-- Canonical planner task, as stored (plannerTypes.ts TaskItem). -/
structure TaskItem where
  id : String
  text : String
  isComplete : Bool
deriving Repr, DecidableEq

/-- Fixed-shape meal record (plannerTypes.ts MealPlan). -/
structure MealPlan where
  breakfast : String
  lunch : String
  snacks : String
  dinner : String
deriving Repr, DecidableEq

/-- Planner document stored at users/{uid}/planner/{today}. -/
structure PlannerDocument where
  tasks : List TaskItem
  meals : MealPlan
  createdAt : Nat
  lastModified : Nat
  modifiedBy : String
deriving Repr, DecidableEq

/-- Stored to-do item. Items written by createToDoList carry no id key,
so the id is optional; isComplete is a loose JS value because
updateToDoItems copies whatever the caller sent. -/
structure ToDoStoredItem where
  id : Option String
  text : String
  isComplete : JsVal
deriving Repr, DecidableEq

/-- To-do list document stored at users/{uid}/to_do_list/{today}. -/
structure ToDoListDocument where
  items : List ToDoStoredItem
  created_at : Nat
  updated_at : Nat
  vapi_tool_call_id : String
deriving Repr, DecidableEq

abbrev TodoStore := String → Option ToDoListDocument

abbrev PlannerStore := String → Option PlannerDocument

/-- An HTTP response: status code plus JSON body. -/
structure HttpOutcome where
  status : Nat
  body : Json

/-- The uniform 4xx and 5xx error body shape. -/
def errOutcome (code : Nat) (msg : String) : HttpOutcome :=
  { status := code
    body := Json.obj [("success", Json.bool false), ("error", Json.str msg),
      ("code", Json.num code)] }

/-- The tool-call response envelope used by the planner, get, and calendar
endpoints. -/
def wrapResults (toolCallId : String) (result : Json) : Json :=
  Json.obj [("results", Json.arr [Json.obj
    [("toolCallId", Json.str toolCallId), ("result", result)]])]

/-- Recognizer for a body of the wrapped tool-call shape. -/
def isResultsWrapped : Json → Bool
  | Json.obj [("results", Json.arr [Json.obj
      [("toolCallId", Json.str _), ("result", _)]])] => true
  | _ => false

/-- The toolCallId carried by a wrapped body, if the body is wrapped. -/
def wrappedToolCallId : Json → Option String
  | Json.obj [("results", Json.arr [Json.obj
      [("toolCallId", Json.str t), ("result", _)]])] => some t
  | _ => none

@[simp] theorem isResultsWrapped_wrapResults (t : String) (r : Json) :
    isResultsWrapped (wrapResults t r) = true := rfl

@[simp] theorem wrappedToolCallId_wrapResults (t : String) (r : Json) :
    wrappedToolCallId (wrapResults t r) = some t := rfl

/-- Embedding of the API key check every handler performs:
request denied when the supplied value is missing or falsy, or differs
from the configured key (source pattern:
a guard of the form not-provided or provided not equal to API_KEY). -/
def authorized (provided : Option String) (configuredKey : String) : Bool :=
  match provided with
  | none => false
  | some p => !(p == "") && (p == configuredKey)

/-- The HTTP and callable endpoints of the repository. -/
inductive Endpoint where
  | saveJournalEntry : Endpoint
  | createToDoList : Endpoint
  | updateToDoItems : Endpoint
  | getTodayToDoList : Endpoint
  | getTodaysPlanner : Endpoint
  | updateTasks : Endpoint
  | updateTaskCompletion : Endpoint
  | updateMeals : Endpoint
  | getCalendarEvents : Endpoint
deriving Repr, DecidableEq

/-- The environment variable each endpoint reads its API key from, per the
const API_KEY line at the top of each source file (empty string fallback
when unset). -/
def apiKeyEnvVar : Endpoint → String
  | Endpoint.saveJournalEntry => "JOURNAL_API_KEY"
  | Endpoint.createToDoList => "JOURNAL_API_KEY"
  | Endpoint.updateToDoItems => "JOURNAL_API_KEY"
  | Endpoint.getTodayToDoList => "JOURNAL_API_KEY"
  | Endpoint.getTodaysPlanner => "JOURNAL_API_KEY"
  | Endpoint.updateTasks => "VAPI_API_KEY"
  | Endpoint.updateTaskCompletion => "JOURNAL_API_KEY"
  | Endpoint.updateMeals => "JOURNAL_API_KEY"
  | Endpoint.getCalendarEvents => "VAPI_API_KEY"

/-- Authorization outcome of an endpoint under an environment, modelled as
a total map from variable names to values with the empty string standing
for an unset variable. -/
def endpointAuthorized (env : String → String) (e : Endpoint)
    (provided : Option String) : Bool :=
  authorized provided (env (apiKeyEnvVar e))

/-- Character class of the ASCII part of the JavaScript regex whitespace
class. -/
def isJsSpace (c : Char) : Bool :=
  c == ' ' || c == '\t' || c == '\n' || c == '\r' || c == '\x0b' || c == '\x0c'

/-- Decimal value of a list of digit characters. -/
def decToNat (ds : List Char) : Nat :=
  ds.foldl (fun a c => a * 10 + (c.toNat - 48)) 0

/-- Matcher for the anchored pattern used by parseTimeString: one or two
digits, a colon, exactly two digits, optional whitespace, then AM or PM
case-insensitively. Returns (hour, minute, isPM) on a match. -/
def matchTimeChars (cs : List Char) : Option (Nat × Nat × Bool) :=
  let ds := cs.takeWhile Char.isDigit
  let rest := cs.dropWhile Char.isDigit
  if ds.length = 0 || 2 < ds.length then none
  else
    match rest with
    | ':' :: m1 :: m2 :: r3 =>
      if m1.isDigit && m2.isDigit then
        match r3.dropWhile isJsSpace with
        | [p1, p2] =>
          if p2.toUpper == 'M' && (p1.toUpper == 'A' || p1.toUpper == 'P') then
            some (decToNat ds, decToNat [m1, m2], p1.toUpper == 'P')
          else none
        | _ => none
      else none
    | _ => none

def matchTime (s : String) : Option (Nat × Nat × Bool) :=
  matchTimeChars s.data

def msPerMinute : Nat := 60000

def msPerDay : Nat := 86400000

/-- Shallow embedding of parseTimeString from services/vapi.ts. Instants
are milliseconds measured from the local midnight of the current day, and
nowMs is the current instant on that scale; a result of at least msPerDay
denotes a time on the following day. Setting hours beyond 23 rolls over
into later days, exactly as the JavaScript setHours call does. -/
def parseTimeString (s : String) (nowMs : Nat) : Option Nat :=
  match matchTime s with
  | none => none
  | some (h, m, isPM) =>
    let hours := if isPM && decide (h < 12) then h + 12
      else if !isPM && decide (h = 12) then 0
      else h
    let d0 := (hours * 60 + m) * msPerMinute
    some (if d0 < nowMs then d0 + msPerDay else d0)

/-- Spec-side validity of a 12-hour clock string, following the words of
the spec: the pattern match with an hour from 1 to 12 and a minute from 00
to 59. Used only to state which inputs denote a valid clock time. -/
def validTimeString_spec (s : String) : Bool :=
  match matchTime s with
  | none => false
  | some (h, m, _) => decide (1 ≤ h ∧ h ≤ 12 ∧ m ≤ 59)

/-- Spec-side 12-hour to 24-hour conversion table: 12 AM becomes hour 0,
12 PM stays hour 12, other hours are unchanged except PM adds 12. -/
def convert12to24_spec (h : Nat) (isPM : Bool) : Nat :=
  if isPM then (if h = 12 then 12 else h + 12)
  else (if h = 12 then 0 else h)

/-- A single tool invocation of the external envelope: its id and its
optional arguments payload. -/
structure ToolCall (α : Type) where
  id : String
  arguments : Option α

/-- Envelope validation: the handlers read toolCallList[0].function.arguments
behind optional chaining, so only the first invocation is examined, and a
missing list, empty list, or missing arguments is a 400. -/
def extractArgs {α : Type} : List (ToolCall α) → Option (String × α)
  | [] => none
  | tc :: _ => tc.arguments.map (fun a => (tc.id, a))

def envelopeError : HttpOutcome :=
  errOutcome 400 "Invalid request structure. Expected VAPI tool call format."

def toDoItemJson (it : ToDoStoredItem) : Json :=
  Json.obj ((match it.id with
    | some i => [("id", Json.str i)]
    | none => []) ++
    [("text", Json.str it.text), ("isComplete", jsValJson it.isComplete)])

def taskItemJson (t : TaskItem) : Json :=
  Json.obj [("id", Json.str t.id), ("text", Json.str t.text),
    ("isComplete", Json.bool t.isComplete)]

def mealPlanJson (m : MealPlan) : Json :=
  Json.obj [("breakfast", Json.str m.breakfast), ("lunch", Json.str m.lunch),
    ("snacks", Json.str m.snacks), ("dinner", Json.str m.dinner)]

/-- Arguments of the create-to-do endpoint; to_do_list is none when the
field is absent or not an array. An empty user_id models a falsy one. -/
structure CreateToDoArgs where
  to_do_list : Option (List String)
  user_id : String

/-- A freshly created to-do item: no id key, isComplete defaulted false. -/
def mkNewToDoItem (t : String) : ToDoStoredItem :=
  { id := none, text := t, isComplete := JsVal.bool false }

/-- Core of createToDoList, after method, body, auth and envelope checks:
validate the list, default the user id, then append to the existing daily
document or create it. -/
def createToDoListStep (store : TodoStore) (args : CreateToDoArgs)
    (toolCallId : String) (now : Nat) (today : String) :
    HttpOutcome × TodoStore :=
  match args.to_do_list with
  | none => (errOutcome 400 "Invalid or empty to_do_list", store)
  | some l =>
    if l.length = 0 then (errOutcome 400 "Invalid or empty to_do_list", store)
    else
      let uid := if args.user_id = "" then "default_user" else args.user_id
      let newItems := l.map mkNewToDoItem
      match store uid with
      | some existingDoc =>
        let combined := existingDoc.items ++ newItems
        let doc := { existingDoc with
                     items := combined, updated_at := now,
                     vapi_tool_call_id := toolCallId }
        ({ status := 200
           body := Json.obj [("success", Json.bool true),
             ("message", Json.str "To-do list updated successfully"),
             ("timestamp", Json.num now), ("date", Json.str today),
             ("tool_call_id", Json.str toolCallId),
             ("items", Json.arr (combined.map toDoItemJson)),
             ("itemsAdded", Json.num newItems.length)] },
         fun u => if u = uid then some doc else store u)
      | none =>
        let doc : ToDoListDocument := { items := newItems,
                                        created_at := now, updated_at := now,
                                        vapi_tool_call_id := toolCallId }
        ({ status := 200
           body := Json.obj [("success", Json.bool true),
             ("message", Json.str "To-do list created successfully"),
             ("timestamp", Json.num now), ("date", Json.str today),
             ("tool_call_id", Json.str toolCallId),
             ("items", Json.arr (newItems.map toDoItemJson)),
             ("itemsAdded", Json.num newItems.length)] },
         fun u => if u = uid then some doc else store u)

/-- The createToDoList handler after auth: envelope extraction plus core. -/
def createToDoList (store : TodoStore) (calls : List (ToolCall CreateToDoArgs))
    (now : Nat) (today : String) : HttpOutcome × TodoStore :=
  match extractArgs calls with
  | none => (envelopeError, store)
  | some (tid, args) => createToDoListStep store args tid now today

/-- One status-update entry of the update-to-do endpoint: an optional id
key and the two optional completion keys, each a loose JS value. -/
structure UpdateStatusItem where
  id : Option String
  isComplete : Option JsVal
  is_complete : Option JsVal
deriving Repr, DecidableEq

/-- The mapping step of updateToDoItems: when the isComplete key is in the
item use it, otherwise read is_complete (undefined when absent). -/
def mappedCompletion (it : UpdateStatusItem) : JsVal :=
  match it.isComplete with
  | some v => v
  | none =>
    match it.is_complete with
    | some v => v
    | none => JsVal.undef

structure UpdateToDoArgsIn where
  user_id : String
  items : Option (List UpdateStatusItem)

/-- Core of updateToDoItems: map completion keys, then rewrite every stored
item whose id some update targets; ids with no stored match are silently
ignored and the document is rewritten (with fresh updated_at) either way. -/
def updateToDoItemsStep (store : TodoStore) (args : UpdateToDoArgsIn)
    (toolCallId : String) (now : Nat) (today : String) :
    HttpOutcome × TodoStore :=
  if args.user_id = "" then
    (errOutcome 400 "Invalid request. Must provide user_id and items array.",
     store)
  else
    match args.items with
    | none =>
      (errOutcome 400 "Invalid request. Must provide user_id and items array.",
       store)
    | some items =>
      if items.length = 0 then
        (errOutcome 400
          "Invalid request. Must provide user_id and items array.", store)
      else
        let mapped := items.map (fun it => (it.id, mappedCompletion it))
        match store args.user_id with
        | none => (errOutcome 404 "No to-do list found for today", store)
        | some doc =>
          let updatedItems := doc.items.map (fun it =>
            match mapped.find? (fun u => decide (u.1 = it.id)) with
            | some u => { it with isComplete := u.2 }
            | none => it)
          let doc2 := { doc with
                        items := updatedItems, updated_at := now,
                        vapi_tool_call_id := toolCallId }
          ({ status := 200
             body := Json.obj [("success", Json.bool true),
               ("message", Json.str "To-do items updated successfully"),
               ("timestamp", Json.num now), ("date", Json.str today),
               ("tool_call_id", Json.str toolCallId),
               ("updatedItems", Json.num items.length),
               ("items", Json.arr (updatedItems.map toDoItemJson))] },
           fun u => if u = args.user_id then some doc2 else store u)

def updateToDoItems (store : TodoStore)
    (calls : List (ToolCall UpdateToDoArgsIn)) (now : Nat) (today : String) :
    HttpOutcome × TodoStore :=
  match extractArgs calls with
  | none => (envelopeError, store)
  | some (tid, args) => updateToDoItemsStep store args tid now today

structure GetArgsIn where
  user_id : String

/-- The read-only get-to-do handler: an absent daily document is answered
with an empty list, not an error. -/
def getTodayToDoList (store : TodoStore) (calls : List (ToolCall GetArgsIn))
    (today : String) : HttpOutcome :=
  match extractArgs calls with
  | none => envelopeError
  | some (tid, args) =>
    if args.user_id = "" then errOutcome 400 "Missing user_id in request"
    else
      match store args.user_id with
      | none =>
        { status := 200
          body := wrapResults tid (Json.obj
            [("message", Json.str "No to-do list found for today"),
             ("date", Json.str today), ("items", Json.arr []),
             ("total_items", Json.num 0), ("completed_items", Json.num 0)]) }
      | some doc =>
        { status := 200
          body := wrapResults tid (Json.obj
            [("message", Json.str "To-do list retrieved successfully"),
             ("date", Json.str today),
             ("items", Json.arr (doc.items.map toDoItemJson)),
             ("total_items", Json.num doc.items.length),
             ("completed_items", Json.num
               (doc.items.filter (fun it => jsTruthy it.isComplete)).length)]) }

/-- The read-only get-planner handler. -/
def getTodaysPlanner (store : PlannerStore) (calls : List (ToolCall GetArgsIn))
    (today : String) : HttpOutcome :=
  match extractArgs calls with
  | none => envelopeError
  | some (tid, args) =>
    if args.user_id = "" then errOutcome 400 "Missing user_id in request"
    else
      match store args.user_id with
      | none =>
        { status := 200
          body := wrapResults tid (Json.obj
            [("message", Json.str "No planner found for today"),
             ("date", Json.str today), ("tasks", Json.arr []),
             ("meals", mealPlanJson
               { breakfast := "", lunch := "", snacks := "", dinner := "" }),
             ("total_tasks", Json.num 0), ("completed_tasks", Json.num 0)]) }
      | some doc =>
        { status := 200
          body := wrapResults tid (Json.obj
            [("message", Json.str "Planner retrieved successfully"),
             ("date", Json.str today),
             ("tasks", Json.arr (doc.tasks.map taskItemJson)),
             ("meals", mealPlanJson doc.meals),
             ("total_tasks", Json.num doc.tasks.length),
             ("completed_tasks", Json.num
               (doc.tasks.filter (fun t => t.isComplete)).length)]) }

structure UpdateTaskCompletionArgsIn where
  user_id : String
  task_id : String
  is_complete : Option Bool
  tool_id : String

/-- The findIndex-then-mutate part of updateTaskCompletion: set isComplete
on the first task with the given id, or none if no task carries it. -/
def setFirstTaskComplete : List TaskItem → String → Bool → Option (List TaskItem)
  | [], _, _ => none
  | t :: rest, tid, b =>
    if t.id = tid then some ({ t with isComplete := b } :: rest)
    else (setFirstTaskComplete rest tid b).map (fun r => t :: r)

/-- Core of updateTaskCompletion: validate, 404 on a missing daily planner
or unknown task id (no write in either case), otherwise toggle exactly the
located task and stamp lastModified and modifiedBy. -/
def updateTaskCompletionStep (store : PlannerStore)
    (args : UpdateTaskCompletionArgsIn) (toolCallId : String) (now : Nat) :
    HttpOutcome × PlannerStore :=
  if args.user_id = "" ∨ args.task_id = "" ∨ args.is_complete = none ∨
      args.tool_id = "" then
    (errOutcome 400
      "Missing or invalid required fields: user_id, task_id, is_complete, or tool_id",
     store)
  else
    match store args.user_id with
    | none => (errOutcome 404 "No planner found for today", store)
    | some doc =>
      let b := args.is_complete.getD false
      match setFirstTaskComplete doc.tasks args.task_id b with
      | none => (errOutcome 404 "Task not found", store)
      | some tasks2 =>
        let doc2 := { doc with
                      tasks := tasks2, lastModified := now,
                      modifiedBy := args.tool_id }
        ({ status := 200
           body := wrapResults toolCallId (Json.obj
             [("success", Json.bool true),
              ("message", Json.str (if b then "Task marked as complete"
                else "Task marked as incomplete")),
              ("timestamp", Json.num now),
              ("operation_id", Json.str toolCallId),
              ("tasks", Json.arr (tasks2.map taskItemJson)),
              ("total_tasks", Json.num tasks2.length),
              ("completed_tasks", Json.num
                (tasks2.filter (fun t => t.isComplete)).length)]) },
         fun u => if u = args.user_id then some doc2 else store u)

def updateTaskCompletion (store : PlannerStore)
    (calls : List (ToolCall UpdateTaskCompletionArgsIn)) (now : Nat) :
    HttpOutcome × PlannerStore :=
  match extractArgs calls with
  | none => (envelopeError, store)
  | some (tid, args) => updateTaskCompletionStep store args tid now

/-- One incoming task of the update-tasks endpoint, with loose completion
keys; an empty id or text models a falsy one. -/
structure TaskInput where
  id : String
  text : String
  isComplete : Option JsVal
  is_complete : Option JsVal
deriving Repr, DecidableEq

/-- Completion-field resolution of updateTasks: isComplete when it is a
boolean, else is_complete when it is a boolean, else none (a 400). -/
def completionChoice (t : TaskInput) : Option Bool :=
  match t.isComplete with
  | some (JsVal.bool b) => some b
  | _ =>
    match t.is_complete with
    | some (JsVal.bool b) => some b
    | _ => none

/-- The per-task validate-and-normalize loop of updateTasks, aborting the
whole batch at the first violation. -/
def normalizeTasks : List TaskInput → Except String (List TaskItem)
  | [] => Except.ok []
  | t :: rest =>
    if t.id = "" ∨ t.text = "" then
      Except.error "Each task must have id and text fields"
    else
      match completionChoice t with
      | none =>
        Except.error "Each task must have isComplete or is_complete field as boolean"
      | some b =>
        if 500 < t.text.length then
          Except.error "Task text too long. Maximum length: 500 characters"
        else
          (normalizeTasks rest).map
            (fun nts => { id := t.id, text := t.text, isComplete := b } :: nts)

structure UpdateTasksArgsIn where
  user_id : String
  tasks : Option (List TaskInput)

/-- Core of updateTasks: validate field presence, the 50-task cap, then
the per-task loop; on success replace the task list wholesale (creating
the planner with empty meals when absent). -/
def updateTasksStep (store : PlannerStore) (args : UpdateTasksArgsIn)
    (toolCallId : String) (now : Nat) : HttpOutcome × PlannerStore :=
  if args.user_id = "" ∨ args.tasks = none then
    (errOutcome 400 "Missing required fields: user_id or tasks", store)
  else
    let l := args.tasks.getD []
    if 50 < l.length then
      (errOutcome 400 "Too many tasks. Maximum allowed: 50", store)
    else
      match normalizeTasks l with
      | Except.error msg => (errOutcome 400 msg, store)
      | Except.ok nts =>
        let write := fun (doc2 : PlannerDocument) =>
          ({ status := 200
             body := wrapResults toolCallId (Json.obj
               [("success", Json.bool true),
                ("message", Json.str "Tasks updated successfully"),
                ("timestamp", Json.num now),
                ("operation_id", Json.str toolCallId),
                ("tasks", Json.arr (nts.map taskItemJson)),
                ("total_tasks", Json.num nts.length),
                ("completed_tasks", Json.num
                  (nts.filter (fun t => t.isComplete)).length)]) },
           fun u => if u = args.user_id then some doc2 else store u)
        match store args.user_id with
        | none =>
          write { tasks := nts,
                  meals := { breakfast := "", lunch := "", snacks := "",
                             dinner := "" },
                  createdAt := now, lastModified := now,
                  modifiedBy := toolCallId }
        | some doc =>
          write { doc with
                  tasks := nts, lastModified := now,
                  modifiedBy := toolCallId }

def updateTasks (store : PlannerStore)
    (calls : List (ToolCall UpdateTasksArgsIn)) (now : Nat) :
    HttpOutcome × PlannerStore :=
  match extractArgs calls with
  | none => (envelopeError, store)
  | some (tid, args) => updateTasksStep store args tid now

/-- Incoming meals payload; a key is none when it is absent or not a
string, matching the typeof check of the handler. -/
structure MealsInput where
  breakfast : Option String
  lunch : Option String
  snacks : Option String
  dinner : Option String
deriving Repr, DecidableEq

structure UpdateMealsArgsIn where
  user_id : String
  meals : Option MealsInput
  tool_id : String

/-- The meals validation loop of updateMeals: every one of the four keys
must be present as a string of at most 1000 characters; the first failing
key aborts with its error. -/
def validateMeals (m : MealsInput) : Except String MealPlan :=
  match m.breakfast with
  | none => Except.error "Invalid or missing breakfast in meals object"
  | some b =>
    if 1000 < b.length then
      Except.error "breakfast description too long. Maximum length: 1000 characters"
    else
      match m.lunch with
      | none => Except.error "Invalid or missing lunch in meals object"
      | some l =>
        if 1000 < l.length then
          Except.error "lunch description too long. Maximum length: 1000 characters"
        else
          match m.snacks with
          | none => Except.error "Invalid or missing snacks in meals object"
          | some sn =>
            if 1000 < sn.length then
              Except.error "snacks description too long. Maximum length: 1000 characters"
            else
              match m.dinner with
              | none => Except.error "Invalid or missing dinner in meals object"
              | some d =>
                if 1000 < d.length then
                  Except.error "dinner description too long. Maximum length: 1000 characters"
                else
                  Except.ok { breakfast := b, lunch := l, snacks := sn,
                              dinner := d }

/-- Core of updateMeals: validate, then replace the whole meals record of
the daily planner (creating the planner with empty tasks when absent). -/
def updateMealsStep (store : PlannerStore) (args : UpdateMealsArgsIn)
    (toolCallId : String) (now : Nat) : HttpOutcome × PlannerStore :=
  match args.meals with
  | none =>
    (errOutcome 400 "Missing required fields: user_id, meals, or tool_id", store)
  | some mi =>
    if args.user_id = "" ∨ args.tool_id = "" then
      (errOutcome 400 "Missing required fields: user_id, meals, or tool_id",
       store)
    else
      match validateMeals mi with
      | Except.error msg => (errOutcome 400 msg, store)
      | Except.ok mp =>
        let write := fun (doc2 : PlannerDocument) =>
          ({ status := 200
             body := wrapResults toolCallId (Json.obj
               [("success", Json.bool true),
                ("message", Json.str "Meals updated successfully"),
                ("timestamp", Json.num now),
                ("operation_id", Json.str toolCallId),
                ("meals", mealPlanJson mp)]) },
           fun u => if u = args.user_id then some doc2 else store u)
        match store args.user_id with
        | none =>
          write { tasks := [], meals := mp, createdAt := now,
                  lastModified := now, modifiedBy := args.tool_id }
        | some doc =>
          write { doc with
                  meals := mp, lastModified := now,
                  modifiedBy := args.tool_id }

def updateMeals (store : PlannerStore)
    (calls : List (ToolCall UpdateMealsArgsIn)) (now : Nat) :
    HttpOutcome × PlannerStore :=
  match extractArgs calls with
  | none => (envelopeError, store)
  | some (tid, args) => updateMealsStep store args tid now

/-- The success body of getCalendarEvents, built from the processed event
list exactly as the response builder of the source does. -/
def getCalendarEventsSuccessBody (toolCallId : String) (events : List Json)
    (nextPageToken : Option String) : Json :=
  wrapResults toolCallId (Json.obj
    [("message", Json.str "Calendar events retrieved successfully"),
     ("events", Json.arr events),
     ("total_events", Json.num events.length),
     ("nextPageToken", match nextPageToken with
       | some t => Json.str t
       | none => Json.null)])

theorem parseTimeString_eval (s : String) (h m : Nat) (isPM : Bool)
    (now : Nat) (hmt : matchTime s = some (h, m, isPM)) :
    parseTimeString s now =
      some (if ((if isPM && decide (h < 12) then h + 12
          else if !isPM && decide (h = 12) then 0 else h) * 60 + m) *
          msPerMinute < now
        then ((if isPM && decide (h < 12) then h + 12
          else if !isPM && decide (h = 12) then 0 else h) * 60 + m) *
          msPerMinute + msPerDay
        else ((if isPM && decide (h < 12) then h + 12
          else if !isPM && decide (h = 12) then 0 else h) * 60 + m) *
          msPerMinute) := by
  simp only [parseTimeString, hmt]

/-- C2 counterexample: the string 25:00 AM does not denote a valid
12-hour clock time, yet the parser accepts it and returns the rolled-over
instant 01:00 of the following day rather than a parse failure. -/
theorem c2_counterexample :
    validTimeString_spec "25:00 AM" = false ∧
    parseTimeString "25:00 AM" 0 = some 90000000 := by
  exact ⟨rfl, rfl⟩

/-- C2 amended: every input string that fails the pattern match of the
parser, including 8:00 and noon, yields a parse failure (none); but a
pattern-matching string with out-of-range components, such as 25:00 AM,
is accepted and rolls over instead of failing. -/
theorem c2_amended :
    (∀ (now : Nat), parseTimeString "8:00" now = none ∧
      parseTimeString "noon" now = none) ∧
    (∀ (s : String) (now : Nat), matchTime s = none →
      parseTimeString s now = none) := by
  constructor
  · intro now
    exact ⟨rfl, rfl⟩
  · intro s now hm
    simp [parseTimeString, hm]

theorem c2_amended_witness : parseTimeString "noon" 0 = none :=
  c2_amended.2 "noon" 0 rfl

/-- C3 counterexample: parsing 8:00 AM when the current instant is
exactly 08:00:00.000 today yields an instant dated today (the result is
below msPerDay), whereas the claim says the boundary case is dated
tomorrow. -/
theorem c3_counterexample :
    parseTimeString "8:00 AM" 28800000 = some 28800000 ∧
    28800000 < msPerDay := by
  constructor
  · rfl
  · norm_num [msPerDay]

/-- C3 amended: for a pattern-matching time string whose hour is between
1 and 12 and minute at most 59, the parser produces the instant given by
the spec conversion table (12 AM is hour 0, 12 PM is hour 12, other hours
unchanged except PM adds 12), dated today when that wall-clock time is in
the future or equal to now, and tomorrow otherwise — the boundary is
inclusive to today, not to tomorrow. -/
theorem c3_amended (s : String) (h m : Nat) (isPM : Bool) (now : Nat)
    (hmt : matchTime s = some (h, m, isPM)) (h1 : 1 ≤ h) (h2 : h ≤ 12)
    (hm59 : m ≤ 59) (hnow : now < msPerDay) :
    (convert12to24_spec h isPM * 60 + m) * msPerMinute < msPerDay ∧
    parseTimeString s now =
      some (if now ≤ (convert12to24_spec h isPM * 60 + m) * msPerMinute
        then (convert12to24_spec h isPM * 60 + m) * msPerMinute
        else (convert12to24_spec h isPM * 60 + m) * msPerMinute + msPerDay) := by
  have hconv : (if isPM && decide (h < 12) then h + 12
      else if !isPM && decide (h = 12) then 0 else h) =
      convert12to24_spec h isPM := by
    cases isPM <;> unfold convert12to24_spec <;> simp <;> split_ifs <;> omega
  constructor
  · unfold convert12to24_spec msPerMinute msPerDay
    split_ifs <;> omega
  · rw [parseTimeString_eval s h m isPM now hmt, hconv]
    by_cases hc : (convert12to24_spec h isPM * 60 + m) * msPerMinute < now
    · rw [if_pos hc, if_neg (by omega)]
    · rw [if_neg hc, if_pos (by omega)]

theorem c3_amended_witness : parseTimeString "8:00 AM" 0 = some 28800000 := by
  have h := (c3_amended "8:00 AM" 8 0 false 0 rfl (by norm_num) (by norm_num)
    (by norm_num) (by norm_num [msPerDay])).2
  norm_num [convert12to24_spec, msPerMinute] at h
  exact h

/-- C5: the access guard denies a missing credential, denies an empty
supplied credential against any configured key, and denies every request
whatsoever when the configured key is empty — in particular an empty
supplied string never matches an empty configured key. -/
theorem c5_access_guard :
    (∀ (key : String), authorized none key = false) ∧
    (∀ (key : String), authorized (some "") key = false) ∧
    (∀ (p : Option String), authorized p "" = false) := by
  refine ⟨fun _ => rfl, fun _ => rfl, fun p => ?_⟩
  match p with
  | none => rfl
  | some s =>
    unfold authorized
    cases hs : (s == "") <;> simp [hs]

/-- C6 counterexample: the endpoints are not all gated by one
configuration value — updateTasks reads a different environment variable
than createToDoList does. -/
theorem c6_counterexample :
    ¬ (∀ (e e2 : Endpoint), apiKeyEnvVar e = apiKeyEnvVar e2) := by
  intro hAll
  have h := hAll Endpoint.updateTasks Endpoint.createToDoList
  revert h
  decide

/-- C6 amended: two environment-supplied secrets gate the endpoints —
VAPI_API_KEY for updateTasks and getCalendarEvents, JOURNAL_API_KEY for
all the others — and each endpoint authorizes a supplied secret exactly
when it is non-empty and equal to that endpoint's own configured value. -/
theorem c6_amended :
    (∀ (e : Endpoint), apiKeyEnvVar e = "JOURNAL_API_KEY" ∨
      apiKeyEnvVar e = "VAPI_API_KEY") ∧
    apiKeyEnvVar Endpoint.updateTasks = "VAPI_API_KEY" ∧
    apiKeyEnvVar Endpoint.getCalendarEvents = "VAPI_API_KEY" ∧
    apiKeyEnvVar Endpoint.createToDoList = "JOURNAL_API_KEY" ∧
    apiKeyEnvVar Endpoint.updateMeals = "JOURNAL_API_KEY" ∧
    apiKeyEnvVar Endpoint.updateTaskCompletion = "JOURNAL_API_KEY" ∧
    (∀ (env : String → String) (e : Endpoint) (p : String),
      endpointAuthorized env e (some p) = true ↔
        p ≠ "" ∧ p = env (apiKeyEnvVar e)) := by
  refine ⟨?_, rfl, rfl, rfl, rfl, rfl, ?_⟩
  · intro e
    cases e <;> first | exact Or.inl rfl | exact Or.inr rfl
  · intro env e p
    unfold endpointAuthorized authorized
    simp [Bool.and_eq_true]

theorem validateMeals_ok_fields (mi : MealsInput) (mp : MealPlan)
    (h : validateMeals mi = Except.ok mp) :
    mi.breakfast ≠ none ∧ mi.lunch ≠ none ∧ mi.snacks ≠ none ∧
    mi.dinner ≠ none := by
  unfold validateMeals at h
  repeat' split at h
  all_goals simp_all

theorem validateMeals_full (b l sn d : String) (hb : b.length ≤ 1000)
    (hl : l.length ≤ 1000) (hs : sn.length ≤ 1000) (hd : d.length ≤ 1000) :
    validateMeals { breakfast := some b, lunch := some l,
                    snacks := some sn, dinner := some d } =
      Except.ok { breakfast := b, lunch := l, snacks := sn, dinner := d } := by
  simp [validateMeals, Nat.not_lt.mpr hb, Nat.not_lt.mpr hl,
    Nat.not_lt.mpr hs, Nat.not_lt.mpr hd]

/-- C1 amended: the update-meals handler requires all four meal keys to be
present as strings; a payload that omits any of the four keys is rejected
with a 400 and the stored planner is left unchanged, and a payload
supplying all four keys (each at most 1000 characters) replaces the
stored meals record wholesale — no per-key merge with prior values takes
place. -/
theorem c1_amended :
    (∀ (store : PlannerStore) (a : UpdateMealsArgsIn) (mi : MealsInput)
      (tid : String) (now : Nat),
      a.meals = some mi →
      (mi.breakfast = none ∨ mi.lunch = none ∨ mi.snacks = none ∨
        mi.dinner = none) →
      (updateMealsStep store a tid now).1.status = 400 ∧
      (updateMealsStep store a tid now).2 = store) ∧
    (∀ (store : PlannerStore) (doc : PlannerDocument) (a : UpdateMealsArgsIn)
      (b l sn d : String) (tid : String) (now : Nat),
      a.user_id ≠ "" → a.tool_id ≠ "" →
      a.meals = some { breakfast := some b, lunch := some l,
                       snacks := some sn, dinner := some d } →
      b.length ≤ 1000 → l.length ≤ 1000 → sn.length ≤ 1000 →
      d.length ≤ 1000 →
      store a.user_id = some doc →
      (updateMealsStep store a tid now).1.status = 200 ∧
      (updateMealsStep store a tid now).2 a.user_id =
        some { doc with
               meals := { breakfast := b, lunch := l, snacks := sn,
                          dinner := d },
               lastModified := now, modifiedBy := a.tool_id }) := by
  constructor
  · intro store a mi tid now hm hnone
    simp only [updateMealsStep, hm]
    by_cases hids : a.user_id = "" ∨ a.tool_id = ""
    · rw [if_pos hids]
      exact ⟨rfl, rfl⟩
    · rw [if_neg hids]
      cases hv : validateMeals mi with
      | error msg => exact ⟨rfl, rfl⟩
      | ok mp =>
        exfalso
        have hf := validateMeals_ok_fields mi mp hv
        rcases hnone with h | h | h | h <;> simp [h] at hf
  · intro store doc a b l sn d tid now hu ht hm hb hl hs hd hstore
    simp only [updateMealsStep, hm, validateMeals_full b l sn d hb hl hs hd,
      hstore]
    rw [if_neg (not_or.mpr ⟨hu, ht⟩)]
    exact ⟨rfl, by simp⟩

theorem c1_amended_witness :
    (updateMealsStep (fun _ => none)
      { user_id := "u1",
        meals := some { breakfast := none, lunch := some "soup",
                        snacks := none, dinner := none },
        tool_id := "t1" } "tc" 3).1.status = 400 :=
  (c1_amended.1 (fun _ => none)
    { user_id := "u1",
      meals := some { breakfast := none, lunch := some "soup",
                      snacks := none, dinner := none },
      tool_id := "t1" }
    { breakfast := none, lunch := some "soup", snacks := none,
      dinner := none } "tc" 3 rfl (Or.inl rfl)).1

/-- C1 counterexample: against a stored planner whose meals record is
breakfast eggs and everything else empty, the partial payload supplying
only lunch soup is rejected with a 400 and the stored meals record keeps
lunch empty — it does not become the merged record the claim promises. -/
theorem c1_counterexample :
    (updateMealsStep
      (fun u => if u = "user1" then
          some { tasks := [],
                 meals := { breakfast := "eggs", lunch := "", snacks := "",
                            dinner := "" },
                 createdAt := 0, lastModified := 0, modifiedBy := "init" }
        else none)
      { user_id := "user1",
        meals := some { breakfast := none, lunch := some "soup",
                        snacks := none, dinner := none },
        tool_id := "tool1" } "tc1" 7).1.status = 400 ∧
    ((updateMealsStep
      (fun u => if u = "user1" then
          some { tasks := [],
                 meals := { breakfast := "eggs", lunch := "", snacks := "",
                            dinner := "" },
                 createdAt := 0, lastModified := 0, modifiedBy := "init" }
        else none)
      { user_id := "user1",
        meals := some { breakfast := none, lunch := some "soup",
                        snacks := none, dinner := none },
        tool_id := "tool1" } "tc1" 7).2 "user1").map PlannerDocument.meals =
      some { breakfast := "eggs", lunch := "", snacks := "", dinner := "" } := by
  exact ⟨rfl, rfl⟩

theorem setFirstTaskComplete_none (ts : List TaskItem) (tid : String)
    (b : Bool) (h : ∀ t ∈ ts, t.id ≠ tid) :
    setFirstTaskComplete ts tid b = none := by
  induction ts with
  | nil => rfl
  | cons t rest ih =>
    unfold setFirstTaskComplete
    rw [if_neg (h t (by simp))]
    rw [ih (fun u hu => h u (by simp [hu]))]
    rfl

theorem setFirstTaskComplete_found (pre : List TaskItem) (t : TaskItem)
    (post : List TaskItem) (tid : String) (b : Bool) (ht : t.id = tid)
    (hpre : ∀ u ∈ pre, u.id ≠ tid) :
    setFirstTaskComplete (pre ++ t :: post) tid b =
      some (pre ++ { t with isComplete := b } :: post) := by
  induction pre with
  | nil => simp [setFirstTaskComplete, ht]
  | cons p ps ih =>
    simp only [List.cons_append]
    unfold setFirstTaskComplete
    rw [if_neg (hpre p (by simp))]
    rw [ih (fun u hu => hpre u (by simp [hu]))]
    rfl

theorem updateMap_skip (items : List ToDoStoredItem)
    (mapped : List (Option String × JsVal))
    (h : ∀ it ∈ items, ∀ p ∈ mapped, p.1 ≠ it.id) :
    items.map (fun it =>
      match mapped.find? (fun u => decide (u.1 = it.id)) with
      | some u => { it with isComplete := u.2 }
      | none => it) = items := by
  induction items with
  | nil => rfl
  | cons a as ih =>
    simp only [List.map_cons]
    have hf : mapped.find? (fun u => decide (u.1 = a.id)) = none := by
      rw [List.find?_eq_none]
      intro p hp
      simpa using h a (by simp) p hp
    rw [hf, ih (fun it hit p hp => h it (by simp [hit]) p hp)]

/-- C4 amended: the planner completion-toggle endpoint behaves as claimed
(unknown task id gives a 404 with the store untouched; a present id flips
exactly that task), but the to-do status endpoint does not: an update
naming an id not present in the stored list succeeds with a 200 and
leaves the item values unchanged, a 404 arising only when no to-do
document exists for the day; when the id is present, exactly that item's
isComplete value is rewritten and every other item passes through. -/
theorem c4_amended :
    (∀ (store : PlannerStore) (a : UpdateTaskCompletionArgsIn) (doc : PlannerDocument)
      (b : Bool) (tid : String) (now : Nat),
      a.user_id ≠ "" → a.task_id ≠ "" → a.is_complete = some b →
      a.tool_id ≠ "" → store a.user_id = some doc →
      (∀ t ∈ doc.tasks, t.id ≠ a.task_id) →
      (updateTaskCompletionStep store a tid now).1.status = 404 ∧
      (updateTaskCompletionStep store a tid now).2 = store) ∧
    (∀ (store : PlannerStore) (a : UpdateTaskCompletionArgsIn) (doc : PlannerDocument)
      (b : Bool) (pre post : List TaskItem) (t : TaskItem) (tid : String) (now : Nat),
      a.user_id ≠ "" → a.task_id ≠ "" → a.is_complete = some b →
      a.tool_id ≠ "" → store a.user_id = some doc →
      doc.tasks = pre ++ t :: post → t.id = a.task_id →
      (∀ u ∈ pre, u.id ≠ a.task_id) →
      (updateTaskCompletionStep store a tid now).1.status = 200 ∧
      (updateTaskCompletionStep store a tid now).2 a.user_id =
        some { doc with
               tasks := pre ++ { t with isComplete := b } :: post,
               lastModified := now, modifiedBy := a.tool_id }) ∧
    (∀ (store : TodoStore) (a : UpdateToDoArgsIn) (us : List UpdateStatusItem)
      (tid : String) (now : Nat) (today : String),
      a.user_id ≠ "" → a.items = some us → us ≠ [] →
      store a.user_id = none →
      (updateToDoItemsStep store a tid now today).1.status = 404 ∧
      (updateToDoItemsStep store a tid now today).2 = store) ∧
    (∀ (store : TodoStore) (uid : String) (u : UpdateStatusItem)
      (doc : ToDoListDocument) (tid : String) (now : Nat) (today : String),
      uid ≠ "" → store uid = some doc →
      (∀ it ∈ doc.items, it.id ≠ u.id) →
      (updateToDoItemsStep store { user_id := uid, items := some [u] }
        tid now today).1.status = 200 ∧
      (((updateToDoItemsStep store { user_id := uid, items := some [u] }
        tid now today).2 uid).map ToDoListDocument.items) = some doc.items) ∧
    (∀ (store : TodoStore) (uid : String) (u : UpdateStatusItem)
      (doc : ToDoListDocument) (pre post : List ToDoStoredItem)
      (it : ToDoStoredItem) (tid : String) (now : Nat) (today : String),
      uid ≠ "" → store uid = some doc →
      doc.items = pre ++ it :: post → it.id = u.id →
      (∀ j ∈ pre ++ post, j.id ≠ u.id) →
      (updateToDoItemsStep store { user_id := uid, items := some [u] }
        tid now today).1.status = 200 ∧
      (((updateToDoItemsStep store { user_id := uid, items := some [u] }
        tid now today).2 uid).map ToDoListDocument.items) =
        some (pre ++ { it with isComplete := mappedCompletion u } :: post)) := by
  refine ⟨?_, ?_, ?_, ?_, ?_⟩
  · intro store a doc b tid now hu htid hic htool hstore hnone
    have hval : ¬(a.user_id = "" ∨ a.task_id = "" ∨ a.is_complete = none ∨
        a.tool_id = "") := by
      simp [hu, htid, htool, hic]
    simp only [updateTaskCompletionStep, if_neg hval, hstore]
    rw [setFirstTaskComplete_none doc.tasks a.task_id _ hnone]
    exact ⟨rfl, rfl⟩
  · intro store a doc b pre post t tid now hu htid hic htool hstore hdoc ht hpre
    simp only [updateTaskCompletionStep, hic]
    rw [if_neg (show ¬(a.user_id = "" ∨ a.task_id = "" ∨
      (some b : Option Bool) = none ∨ a.tool_id = "") by
        simp [hu, htid, htool])]
    simp only [hstore, Option.getD_some, hdoc]
    rw [setFirstTaskComplete_found pre t post a.task_id b ht hpre]
    exact ⟨rfl, by simp⟩
  · intro store a us tid now today hu hitems hne hstore
    have hlen : ¬ us.length = 0 := by simpa [List.length_eq_zero] using hne
    simp only [updateToDoItemsStep, if_neg hu, hitems, if_neg hlen, hstore]
    constructor <;> trivial
  · intro store uid u doc tid now today hu hstore hnone
    have hlen : ¬ ([u].length = 0) := by simp
    simp only [updateToDoItemsStep, if_neg hu, if_neg hlen, List.map_cons,
      List.map_nil, hstore]
    rw [updateMap_skip doc.items [(u.id, mappedCompletion u)]
      (fun it hit p hp => by
        simp only [List.mem_singleton] at hp
        subst hp
        exact fun hh => hnone it hit hh.symm)]
    refine ⟨by trivial, ?_⟩
    simp
  · intro store uid u doc pre post it tid now today hu hstore hdoc hit hrest
    have hlen : ¬ ([u].length = 0) := by simp
    simp only [updateToDoItemsStep, if_neg hu, if_neg hlen, List.map_cons,
      List.map_nil, hstore, hdoc]
    rw [List.map_append, List.map_cons]
    rw [updateMap_skip pre [(u.id, mappedCompletion u)]
      (fun j hj p hp => by
        simp only [List.mem_singleton] at hp
        subst hp
        exact fun hh => hrest j (by simp [hj]) hh.symm)]
    rw [updateMap_skip post [(u.id, mappedCompletion u)]
      (fun j hj p hp => by
        simp only [List.mem_singleton] at hp
        subst hp
        exact fun hh => hrest j (by simp [hj]) hh.symm)]
    have hfind : [(u.id, mappedCompletion u)].find?
        (fun p => decide (p.1 = it.id)) = some (u.id, mappedCompletion u) := by
      simp [List.find?, hit]
    rw [hfind]
    refine ⟨by trivial, ?_⟩
    simp

theorem c4_amended_witness :
    (updateTaskCompletionStep
      (fun v => if v = "u" then
          some { tasks := [{ id := "a", text := "x", isComplete := false }],
                 meals := { breakfast := "", lunch := "", snacks := "",
                            dinner := "" },
                 createdAt := 0, lastModified := 0, modifiedBy := "m" }
        else none)
      { user_id := "u", task_id := "zzz", is_complete := some true,
        tool_id := "t" } "tc" 9).1.status = 404 :=
  (c4_amended.1
    (fun v => if v = "u" then
        some { tasks := [{ id := "a", text := "x", isComplete := false }],
               meals := { breakfast := "", lunch := "", snacks := "",
                          dinner := "" },
               createdAt := 0, lastModified := 0, modifiedBy := "m" }
      else none)
    { user_id := "u", task_id := "zzz", is_complete := some true,
      tool_id := "t" }
    { tasks := [{ id := "a", text := "x", isComplete := false }],
      meals := { breakfast := "", lunch := "", snacks := "", dinner := "" },
      createdAt := 0, lastModified := 0, modifiedBy := "m" }
    true "tc" 9 (by decide) (by decide) rfl (by decide) rfl
    (by decide)).1

/-- C4 counterexample: a to-do status update naming an id absent from the
stored list does not fail with a 404 — it returns a 200 and the stored
item values are unchanged. -/
theorem c4_counterexample :
    (updateToDoItemsStep
      (fun v => if v = "u1" then
          some { items := [{ id := some "a", text := "buy milk",
                             isComplete := JsVal.bool false }],
                 created_at := 0, updated_at := 0, vapi_tool_call_id := "t0" }
        else none)
      { user_id := "u1",
        items := some [{ id := some "b",
                         isComplete := some (JsVal.bool true),
                         is_complete := none }] } "tc1" 5 "d").1.status = 200 ∧
    ((updateToDoItemsStep
      (fun v => if v = "u1" then
          some { items := [{ id := some "a", text := "buy milk",
                             isComplete := JsVal.bool false }],
                 created_at := 0, updated_at := 0, vapi_tool_call_id := "t0" }
        else none)
      { user_id := "u1",
        items := some [{ id := some "b",
                         isComplete := some (JsVal.bool true),
                         is_complete := none }] } "tc1" 5 "d").2 "u1").map
      ToDoListDocument.items =
      some [{ id := some "a", text := "buy milk",
              isComplete := JsVal.bool false }] := by
  exact ⟨rfl, rfl⟩

theorem createToDoListStep_items (store : TodoStore) (userArg : String)
    (l : List String) (tid : String) (now : Nat) (today : String)
    (hl : l ≠ []) :
    (createToDoListStep store { to_do_list := some l, user_id := userArg }
      tid now today).1.status = 200 ∧
    (((createToDoListStep store { to_do_list := some l, user_id := userArg }
        tid now today).2
      (if userArg = "" then "default_user" else userArg)).map
        ToDoListDocument.items) =
      some ((match store (if userArg = "" then "default_user" else userArg) with
             | none => []
             | some doc => doc.items) ++ l.map mkNewToDoItem) := by
  have hlen : ¬ l.length = 0 := by simpa [List.length_eq_zero] using hl
  simp only [createToDoListStep, if_neg hlen]
  cases hs : store (if userArg = "" then "default_user" else userArg) with
  | none =>
    simp [hs]
  | some doc =>
    simp [hs]

/-- C8: two successive create-to-do requests for the same user append:
the final stored list is the prior items, then the first request's new
items, then the second request's, all new items created not-complete. -/
theorem c8_create_appends (store : TodoStore) (uid : String)
    (l1 l2 : List String) (t1 t2 : String) (n1 n2 : Nat) (d1 d2 : String)
    (hu : uid ≠ "") (h1 : l1 ≠ []) (h2 : l2 ≠ []) :
    (((createToDoListStep
        ((createToDoListStep store { to_do_list := some l1, user_id := uid }
          t1 n1 d1).2)
        { to_do_list := some l2, user_id := uid } t2 n2 d2).2 uid).map
      ToDoListDocument.items) =
      some ((match store uid with
             | none => []
             | some doc => doc.items) ++
        l1.map mkNewToDoItem ++ l2.map mkNewToDoItem) := by
  have step1 := (createToDoListStep_items store uid l1 t1 n1 d1 h1).2
  rw [if_neg hu] at step1
  set s1 := (createToDoListStep store { to_do_list := some l1, user_id := uid }
    t1 n1 d1).2 with hs1
  obtain ⟨doc1, hdoc1, hitems1⟩ := Option.map_eq_some'.mp step1
  have step2 := (createToDoListStep_items s1 uid l2 t2 n2 d2 h2).2
  rw [if_neg hu] at step2
  rw [hdoc1] at step2
  simp only [] at step2
  rw [step2, hitems1, List.append_assoc]

theorem c8_create_appends_witness :
    (((createToDoListStep
        ((createToDoListStep (fun _ => none)
          { to_do_list := some ["A"], user_id := "u7" } "ta" 1 "d").2)
        { to_do_list := some ["B"], user_id := "u7" } "tb" 2 "d").2 "u7").map
      ToDoListDocument.items) =
      some [mkNewToDoItem "A", mkNewToDoItem "B"] := by
  have h := c8_create_appends (fun _ => none) "u7" ["A"] ["B"] "ta" "tb" 1 2
    "d" "d" (by decide) (by decide) (by decide)
  simpa using h

/-- A task input violates the update-tasks constraints when its id or
text is falsy, it lacks a boolean completion field, or its text exceeds
500 characters. -/
def taskViolates (t : TaskInput) : Prop :=
  t.id = "" ∨ t.text = "" ∨ completionChoice t = none ∨ 500 < t.text.length

instance (t : TaskInput) : Decidable (taskViolates t) := by
  unfold taskViolates
  infer_instance

theorem normalizeTasks_ok (ts : List TaskInput)
    (h : ∀ t ∈ ts, ¬ taskViolates t) :
    normalizeTasks ts = Except.ok (ts.map (fun t =>
      { id := t.id, text := t.text,
        isComplete := (completionChoice t).getD false })) := by
  induction ts with
  | nil => rfl
  | cons t rest ih =>
    have hv := h t (by simp)
    unfold taskViolates at hv
    push_neg at hv
    obtain ⟨hid, htext, hcc, hlen⟩ := hv
    simp only [normalizeTasks]
    split
    · rename_i h1
      exact absurd h1 (by tauto)
    · split
      · rename_i hcv
        exact absurd hcv hcc
      · split
        · rename_i h2
          exact absurd h2 (by omega)
        · rename_i h1 b hcv h2
          rw [ih (fun u hu => h u (by simp [hu]))]
          simp [Except.map, hcv]

theorem normalizeTasks_error (ts : List TaskInput)
    (h : ∃ t ∈ ts, taskViolates t) :
    ∃ msg, normalizeTasks ts = Except.error msg := by
  induction ts with
  | nil => simp at h
  | cons t rest ih =>
    simp only [normalizeTasks]
    split
    · exact ⟨_, rfl⟩
    · split
      · exact ⟨_, rfl⟩
      · split
        · exact ⟨_, rfl⟩
        · rename_i h1 hx b hcv h2
          have hrest : ∃ u ∈ rest, taskViolates u := by
            rcases h with ⟨u, hu, hv⟩
            rcases List.mem_cons.mp hu with rfl | hmem
            · exfalso
              unfold taskViolates at hv
              rcases hv with hx | hx | hx | hx
              · exact h1 (Or.inl hx)
              · exact h1 (Or.inr hx)
              · rw [hcv] at hx
                cases hx
              · exact h2 hx
            · exact ⟨u, hmem, hv⟩
          obtain ⟨msg, hmsg⟩ := ih hrest
          rw [hmsg]
          exact ⟨msg, rfl⟩

/-- C9: a task carrying at least one boolean completion field, a
non-falsy id and text, and text within 500 characters normalizes to the
canonical record with only isComplete; and a batch that is too long or
contains any violating task is answered with a 400 and the store is left
untouched — no partial write. -/
theorem c9_validate_normalize :
    (∀ (ts : List TaskInput), (∀ t ∈ ts, ¬ taskViolates t) →
      normalizeTasks ts = Except.ok (ts.map (fun t =>
        { id := t.id, text := t.text,
          isComplete := (completionChoice t).getD false }))) ∧
    (∀ (store : PlannerStore) (uid : String) (ts : List TaskInput)
      (tid : String) (now : Nat),
      uid ≠ "" → (50 < ts.length ∨ ∃ t ∈ ts, taskViolates t) →
      (updateTasksStep store { user_id := uid, tasks := some ts }
        tid now).1.status = 400 ∧
      (updateTasksStep store { user_id := uid, tasks := some ts }
        tid now).2 = store) := by
  constructor
  · exact normalizeTasks_ok
  · intro store uid ts tid now hu hbad
    simp only [updateTasksStep]
    rw [if_neg (by simp [hu])]
    simp only [Option.getD_some]
    by_cases hlen : 50 < ts.length
    · rw [if_pos hlen]
      exact ⟨rfl, rfl⟩
    · rcases hbad with h | h
      · exact absurd h hlen
      · rw [if_neg hlen]
        obtain ⟨msg, hmsg⟩ := normalizeTasks_error ts h
        rw [hmsg]
        exact ⟨rfl, rfl⟩

theorem c9_validate_normalize_witness :
    normalizeTasks [{ id := "t1", text := "buy milk",
                      isComplete := some (JsVal.bool true),
                      is_complete := none }] =
      Except.ok [{ id := "t1", text := "buy milk", isComplete := true }] ∧
    (updateTasksStep (fun _ => none)
      { user_id := "u",
        tasks := some (List.replicate 51
          { id := "t1", text := "x", isComplete := some (JsVal.bool false),
            is_complete := none }) } "tc" 0).1.status = 400 := by
  constructor
  · exact c9_validate_normalize.1
      [{ id := "t1", text := "buy milk",
         isComplete := some (JsVal.bool true), is_complete := none }]
      (by decide)
  · exact (c9_validate_normalize.2 (fun _ => none) "u" _ "tc" 0 (by decide)
      (Or.inl (by norm_num [List.length_replicate]))).1

/-- C10: a create-to-do request with a falsy user id is not rejected; it
succeeds with a 200 and its items are written under the fixed user id
default_user, appended to whatever that shared daily document already
holds. -/
theorem c10_default_user (store : TodoStore) (l : List String)
    (tid : String) (now : Nat) (today : String) (hl : l ≠ []) :
    (createToDoListStep store { to_do_list := some l, user_id := "" }
      tid now today).1.status = 200 ∧
    (((createToDoListStep store { to_do_list := some l, user_id := "" }
        tid now today).2 "default_user").map ToDoListDocument.items) =
      some ((match store "default_user" with
             | none => []
             | some doc => doc.items) ++ l.map mkNewToDoItem) := by
  have h := createToDoListStep_items store "" l tid now today hl
  simpa using h

theorem c10_default_user_witness :
    (((createToDoListStep (fun _ => none)
        { to_do_list := some ["call mom"], user_id := "" }
        "tc" 4 "d").2 "default_user").map ToDoListDocument.items) =
      some [mkNewToDoItem "call mom"] := by
  have h := (c10_default_user (fun _ => none) ["call mom"] "tc" 4 "d"
    (by decide)).2
  simpa using h

theorem updateMealsStep_wrapped (store : PlannerStore)
    (a : UpdateMealsArgsIn) (tid : String) (now : Nat) :
    (updateMealsStep store a tid now).1.status = 200 →
    ∃ r, (updateMealsStep store a tid now).1.body = wrapResults tid r := by
  simp only [updateMealsStep]
  split
  · exact fun h => absurd h (by simp [errOutcome])
  · split
    · exact fun h => absurd h (by simp [errOutcome])
    · split
      · exact fun h => absurd h (by simp [errOutcome])
      · split
        · exact fun _ => ⟨_, rfl⟩
        · exact fun _ => ⟨_, rfl⟩

theorem updateTasksStep_wrapped (store : PlannerStore)
    (a : UpdateTasksArgsIn) (tid : String) (now : Nat) :
    (updateTasksStep store a tid now).1.status = 200 →
    ∃ r, (updateTasksStep store a tid now).1.body = wrapResults tid r := by
  simp only [updateTasksStep]
  split
  · exact fun h => absurd h (by simp [errOutcome])
  · split
    · exact fun h => absurd h (by simp [errOutcome])
    · split
      · exact fun h => absurd h (by simp [errOutcome])
      · split
        · exact fun _ => ⟨_, rfl⟩
        · exact fun _ => ⟨_, rfl⟩

theorem updateTaskCompletionStep_wrapped (store : PlannerStore)
    (a : UpdateTaskCompletionArgsIn) (tid : String) (now : Nat) :
    (updateTaskCompletionStep store a tid now).1.status = 200 →
    ∃ r, (updateTaskCompletionStep store a tid now).1.body =
      wrapResults tid r := by
  simp only [updateTaskCompletionStep]
  split
  · exact fun h => absurd h (by simp [errOutcome])
  · split
    · exact fun h => absurd h (by simp [errOutcome])
    · split
      · exact fun h => absurd h (by simp [errOutcome])
      · exact fun _ => ⟨_, rfl⟩

theorem createToDoListStep_flat (store : TodoStore) (args : CreateToDoArgs)
    (tid : String) (now : Nat) (today : String) :
    (createToDoListStep store args tid now today).1.status = 200 →
    isResultsWrapped (createToDoListStep store args tid now today).1.body =
      false := by
  simp only [createToDoListStep]
  split
  · exact fun h => absurd h (by simp [errOutcome])
  · split
    · exact fun h => absurd h (by simp [errOutcome])
    · split
      · exact fun _ => rfl
      · exact fun _ => rfl

theorem updateToDoItemsStep_flat (store : TodoStore) (args : UpdateToDoArgsIn)
    (tid : String) (now : Nat) (today : String) :
    (updateToDoItemsStep store args tid now today).1.status = 200 →
    isResultsWrapped (updateToDoItemsStep store args tid now today).1.body =
      false := by
  simp only [updateToDoItemsStep]
  split
  · exact fun h => absurd h (by simp [errOutcome])
  · split
    · exact fun h => absurd h (by simp [errOutcome])
    · split
      · exact fun h => absurd h (by simp [errOutcome])
      · split
        · exact fun h => absurd h (by simp [errOutcome])
        · exact fun _ => rfl

/-- C7 amended: the planner endpoints, the two get endpoints and the
calendar endpoint wrap every 200 body as a results envelope carrying the
first tool invocation's id; but createToDoList and updateToDoItems return
flat success bodies that are not wrapped. -/
theorem c7_amended :
    (∀ (store : TodoStore) (tc : ToolCall CreateToDoArgs)
      (rest : List (ToolCall CreateToDoArgs)) (now : Nat) (today : String),
      (createToDoList store (tc :: rest) now today).1.status = 200 →
      isResultsWrapped (createToDoList store (tc :: rest) now today).1.body =
        false) ∧
    (∀ (store : TodoStore) (tc : ToolCall UpdateToDoArgsIn)
      (rest : List (ToolCall UpdateToDoArgsIn)) (now : Nat) (today : String),
      (updateToDoItems store (tc :: rest) now today).1.status = 200 →
      isResultsWrapped (updateToDoItems store (tc :: rest) now today).1.body =
        false) ∧
    (∀ (store : PlannerStore) (tc : ToolCall UpdateMealsArgsIn)
      (rest : List (ToolCall UpdateMealsArgsIn)) (now : Nat),
      (updateMeals store (tc :: rest) now).1.status = 200 →
      isResultsWrapped (updateMeals store (tc :: rest) now).1.body = true ∧
      wrappedToolCallId (updateMeals store (tc :: rest) now).1.body =
        some tc.id) ∧
    (∀ (store : PlannerStore) (tc : ToolCall UpdateTasksArgsIn)
      (rest : List (ToolCall UpdateTasksArgsIn)) (now : Nat),
      (updateTasks store (tc :: rest) now).1.status = 200 →
      isResultsWrapped (updateTasks store (tc :: rest) now).1.body = true ∧
      wrappedToolCallId (updateTasks store (tc :: rest) now).1.body =
        some tc.id) ∧
    (∀ (store : PlannerStore) (tc : ToolCall UpdateTaskCompletionArgsIn)
      (rest : List (ToolCall UpdateTaskCompletionArgsIn)) (now : Nat),
      (updateTaskCompletion store (tc :: rest) now).1.status = 200 →
      isResultsWrapped
        (updateTaskCompletion store (tc :: rest) now).1.body = true ∧
      wrappedToolCallId (updateTaskCompletion store (tc :: rest) now).1.body =
        some tc.id) ∧
    (∀ (store : TodoStore) (tc : ToolCall GetArgsIn)
      (rest : List (ToolCall GetArgsIn)) (today : String),
      (getTodayToDoList store (tc :: rest) today).status = 200 →
      isResultsWrapped (getTodayToDoList store (tc :: rest) today).body =
        true ∧
      wrappedToolCallId (getTodayToDoList store (tc :: rest) today).body =
        some tc.id) ∧
    (∀ (store : PlannerStore) (tc : ToolCall GetArgsIn)
      (rest : List (ToolCall GetArgsIn)) (today : String),
      (getTodaysPlanner store (tc :: rest) today).status = 200 →
      isResultsWrapped (getTodaysPlanner store (tc :: rest) today).body =
        true ∧
      wrappedToolCallId (getTodaysPlanner store (tc :: rest) today).body =
        some tc.id) ∧
    (∀ (tid : String) (events : List Json) (npt : Option String),
      isResultsWrapped (getCalendarEventsSuccessBody tid events npt) = true ∧
      wrappedToolCallId (getCalendarEventsSuccessBody tid events npt) =
        some tid) := by
  refine ⟨?_, ?_, ?_, ?_, ?_, ?_, ?_, ?_⟩
  · intro store tc rest now today h
    cases harg : tc.arguments with
    | none =>
      simp [createToDoList, extractArgs, harg, envelopeError, errOutcome] at h
    | some a =>
      simp only [createToDoList, extractArgs, harg, Option.map_some'] at h ⊢
      exact createToDoListStep_flat store a tc.id now today h
  · intro store tc rest now today h
    cases harg : tc.arguments with
    | none =>
      simp [updateToDoItems, extractArgs, harg, envelopeError, errOutcome] at h
    | some a =>
      simp only [updateToDoItems, extractArgs, harg, Option.map_some'] at h ⊢
      exact updateToDoItemsStep_flat store a tc.id now today h
  · intro store tc rest now h
    cases harg : tc.arguments with
    | none =>
      simp [updateMeals, extractArgs, harg, envelopeError, errOutcome] at h
    | some a =>
      simp only [updateMeals, extractArgs, harg, Option.map_some'] at h ⊢
      obtain ⟨r, hr⟩ := updateMealsStep_wrapped store a tc.id now h
      rw [hr]
      exact ⟨by simp, by simp⟩
  · intro store tc rest now h
    cases harg : tc.arguments with
    | none =>
      simp [updateTasks, extractArgs, harg, envelopeError, errOutcome] at h
    | some a =>
      simp only [updateTasks, extractArgs, harg, Option.map_some'] at h ⊢
      obtain ⟨r, hr⟩ := updateTasksStep_wrapped store a tc.id now h
      rw [hr]
      exact ⟨by simp, by simp⟩
  · intro store tc rest now h
    cases harg : tc.arguments with
    | none =>
      simp [updateTaskCompletion, extractArgs, harg, envelopeError,
        errOutcome] at h
    | some a =>
      simp only [updateTaskCompletion, extractArgs, harg, Option.map_some']
        at h ⊢
      obtain ⟨r, hr⟩ := updateTaskCompletionStep_wrapped store a tc.id now h
      rw [hr]
      exact ⟨by simp, by simp⟩
  · intro store tc rest today
    cases harg : tc.arguments with
    | none =>
      intro h
      simp [getTodayToDoList, extractArgs, harg, envelopeError, errOutcome]
        at h
    | some a =>
      simp only [getTodayToDoList, extractArgs, harg, Option.map_some']
      split
      · exact fun h => absurd h (by simp [errOutcome])
      · split
        · exact fun _ => ⟨by simp, by simp⟩
        · exact fun _ => ⟨by simp, by simp⟩
  · intro store tc rest today
    cases harg : tc.arguments with
    | none =>
      intro h
      simp [getTodaysPlanner, extractArgs, harg, envelopeError, errOutcome]
        at h
    | some a =>
      simp only [getTodaysPlanner, extractArgs, harg, Option.map_some']
      split
      · exact fun h => absurd h (by simp [errOutcome])
      · split
        · exact fun _ => ⟨by simp, by simp⟩
        · exact fun _ => ⟨by simp, by simp⟩
  · intro tid events npt
    exact ⟨by simp [getCalendarEventsSuccessBody],
      by simp [getCalendarEventsSuccessBody]⟩

theorem c7_amended_witness :
    isResultsWrapped (updateMeals (fun _ => none)
      [{ id := "tc9",
         arguments := some
           { user_id := "u",
             meals := some
               { breakfast := some "a", lunch := some "b",
                 snacks := some "c", dinner := some "d" },
             tool_id := "t" } }] 3).1.body = true :=
  (c7_amended.2.2.1 (fun _ => none)
    { id := "tc9",
      arguments := some
        { user_id := "u",
          meals := some
            { breakfast := some "a", lunch := some "b",
              snacks := some "c", dinner := some "d" },
          tool_id := "t" } } [] 3 rfl).1

/-- C7 counterexample: a successful createToDoList request returns a 200
whose body is a flat object, not the results-wrapped envelope the claim
asserts for every tool-call-style endpoint. -/
theorem c7_counterexample :
    (createToDoList (fun _ => none)
      [{ id := "tc1",
         arguments := some { to_do_list := some ["A"], user_id := "u" } }]
      0 "d").1.status = 200 ∧
    isResultsWrapped ((createToDoList (fun _ => none)
      [{ id := "tc1",
         arguments := some { to_do_list := some ["A"], user_id := "u" } }]
      0 "d").1.body) = false := by
  exact ⟨rfl, rfl⟩

end Adulting
